import Mathlib

/-!
Verification development for the free-courses-api repository.

The Python sources under `app/` are shallowly embedded below:

* `app/schemas/course.py` — `CourseSchema` (a pydantic model) becomes the
  `Course` structure together with the validating constructor
  `mkCourseSchema` (pydantic raises `ValidationError` when a required
  field is `None` or an `HttpUrl` field does not parse; unknown keyword
  arguments such as `course_date` are silently dropped because the model
  declares no such field and the default pydantic config ignores extras).
* `app/services/coursera.py`, `udemy.py`, `edx.py`, `youtube.py` — each
  parse function is embedded as a total Lean function; Python exceptions
  are modelled with `Except PyErr`.  Python truthiness tests on strings,
  numbers and lists are modelled explicitly (`""`, `0` and `[]` are falsy).
  Conditionally assigned local variables (`avg_rating` / `count_rating` in
  `parse_udemy_response`, `provider_img` in `parse_edx_response`,
  `publish_date` in `parse_youtube_response`) are threaded as explicit
  state of type `Option _`, `none` meaning "unbound"; reading an unbound
  local raises `NameError`.
* `app/routers/resources.py` — `search_courses` becomes a function taking
  the four adapter outcomes (each `Except String (List Course)`, the
  environment of the four awaited calls) and returning the response
  dictionary as a nested association list.  The order in which the code
  awaits the adapter calls is recorded by `search_courses_events`.
* The edX fetch loop (`fetch_edx_courses`) is embedded over a script of
  upstream outcomes, one per attempt, recording the number of attempts
  and the back-off sleep durations.

Numeric JSON values (ratings) are modelled as exact rationals; Python's
`round(x, 1)` becomes `pyRound1` (round half to even at one decimal).
-/

/-- Python exception classes relevant to the embedded code. -/
inductive PyErr where
  | validationError
  | indexError
  | nameError
  | typeError
  | valueError
  | attributeError
  deriving Repr, DecidableEq

/-- Result of `datetime.date`: a plain calendar date. -/
structure PyDate where
  year : Nat
  month : Nat
  day : Nat
  deriving Repr, DecidableEq

/-- Python truthiness of an optional string (`None` and `""` are falsy). -/
def pyTruthyStr : Option String → Bool
  | none => false
  | some s => !(s == "")

/-- Python `a or b` on optional strings: the left value unless it is falsy. -/
def pyOr (a b : Option String) : Option String :=
  match a with
  | some s => if s == "" then b else some s
  | none => b

/-- Python whitespace for `str.strip()`. -/
def isPySpace (c : Char) : Bool :=
  c == ' ' || c == '\t' || c == '\n' || c == '\r' || c == '\x0b' || c == '\x0c'

/-- Model of `str.strip()`: drop leading and trailing whitespace.  Implemented on
the character list so that proofs can evaluate it. -/
def pyStrip (s : String) : String :=
  String.mk (((s.data.dropWhile isPySpace).reverse.dropWhile isPySpace).reverse)

/-- ASCII `str.lower()` on one character (every string the embedded code
lower-cases is ASCII). -/
def pyLowerChar (c : Char) : Char :=
  if 65 ≤ c.toNat && c.toNat ≤ 90 then Char.ofNat (c.toNat + 32) else c

/-- ASCII `str.lower()`. -/
def pyLower (s : String) : String :=
  String.mk (s.data.map pyLowerChar)

/-- ASCII `str.upper()` on one character. -/
def pyUpperChar (c : Char) : Char :=
  if 97 ≤ c.toNat && c.toNat ≤ 122 then Char.ofNat (c.toNat - 32) else c

/-- ASCII `str.upper()`. -/
def pyUpper (s : String) : String :=
  String.mk (s.data.map pyUpperChar)

/-- Model of `s.replace("_", " ")`: the pattern is a single character, so this is a
character map. -/
def pyReplaceUnderscore (s : String) : String :=
  String.mk (s.data.map (fun c => if c == '_' then ' ' else c))

/-- A digit string to a number, as the field parsing inside `strptime`. -/
def digitsToNat (l : List Char) : Option Nat :=
  if l.isEmpty || !(l.all Char.isDigit) then none
  else some (l.foldl (fun n c => n * 10 + (c.toNat - 48)) 0)

/-- Split a character list at a separator character (`str.split(sep)`). -/
def splitOnChar (sep : Char) : List Char → List Char → List (List Char)
  | [], acc => [acc.reverse]
  | c :: rest, acc =>
    if c == sep then acc.reverse :: splitOnChar sep rest []
    else splitOnChar sep rest (c :: acc)

/-- Python `l[0]`: first element, or `IndexError` on an empty list. -/
def pyIndex0 {α : Type} : List α → Except PyErr α
  | [] => Except.error PyErr.indexError
  | x :: _ => Except.ok x

/-- Models `item.get(key, [None])` for a list-valued key: a missing key
yields the one-element default `[None]`, a present list is kept. -/
def getListDefaultNone (l : Option (List String)) : List (Option String) :=
  match l with
  | none => [none]
  | some xs => xs.map some

/-- Model of pydantic's `HttpUrl` validation: an http or https scheme with a
nonempty remainder.  (The real validator is stricter; every URL appearing in
this development is plainly valid or plainly invalid, so this captures the
accept/reject behaviour the claims depend on.) -/
def isValidHttpUrl (s : String) : Bool :=
  (List.isPrefixOf (("http://").toList) s.toList && s.toList.length > 7) ||
  (List.isPrefixOf (("https://").toList) s.toList && s.toList.length > 8)

/-- Validation of an optional `HttpUrl` field (`None` is accepted). -/
def validOptUrl : Option String → Bool
  | none => true
  | some s => isValidHttpUrl s

/-- Round half to even to the nearest integer, as Python's `round`. -/
def roundHalfEvenInt (q : Rat) : Int :=
  let f : Int := q.floor
  let frac : Rat := q - (f : Rat)
  if frac < 1 / 2 then f
  else if 1 / 2 < frac then f + 1
  else if f % 2 = 0 then f else f + 1

/-- Python `round(x, 1)` on an exact rational. -/
def pyRound1 (q : Rat) : Rat :=
  ((roundHalfEvenInt (q * 10) : Int) : Rat) / 10

/-- The `CourseSchema` pydantic model of `app/schemas/course.py`: its exact
field list.  Note that it declares no publish/update date field. -/
structure Course where
  title : String
  url : String
  image_url : Option String
  duration : Option String
  provider : Option String
  provider_img : Option String
  difficulty : Option String
  avg_rating : Option Rat
  count_rating : Option Int
  skills : Option (List String)
  deriving Repr, DecidableEq

/-- The `CourseSchema(...)` constructor call: pydantic validation.
`title` must be a string (a `None` value is a `ValidationError`), `url`
must be a valid `HttpUrl`, the optional url fields must be valid when
present, and a `skills` list may not contain `None` entries.  The
`cdate` argument models the `course_date=` keyword passed by the Udemy
and YouTube services: `CourseSchema` declares no such field, so pydantic
(default config, extras ignored) silently discards it. -/
def mkCourseSchema (title url image_url duration provider provider_img
    difficulty : Option String) (avg_rating : Option Rat)
    (count_rating : Option Int) (skills : Option (List (Option String)))
    (cdate : Option PyDate) : Except PyErr Course :=
  match title, url with
  | some t, some u =>
    if isValidHttpUrl u && validOptUrl image_url && validOptUrl provider_img
        && (match skills with
            | none => true
            | some l => l.all Option.isSome) then
      Except.ok ⟨t, u, image_url, duration, provider, provider_img,
        difficulty, avg_rating, count_rating,
        skills.map (fun l => l.filterMap id)⟩
    else Except.error PyErr.validationError
  | _, _ => Except.error PyErr.validationError

/-! ## Coursera adapter (`app/services/coursera.py`) -/

/-- One element of the Coursera search response (`Search_ProductHit`). -/
structure CourseraItem where
  name : Option String
  url : Option String
  imageUrl : Option String
  productDifficultyLevel : Option String
  productDuration : Option String
  avgProductRating : Option Rat
  numProductRatings : Option Int
  skills : Option (List String)
  partners : Option (List String)
  partnerLogos : Option (List String)
  deriving Repr, DecidableEq

/-- The Coursera response after the guarded navigation
`data["data"]["SearchResult"]["search"][0]["elements"]`; `none` models any
failure of that navigation (the code then returns `[]`). -/
structure CourseraResponse where
  elements : Option (List CourseraItem)
  deriving Repr, DecidableEq

/-- The loop body of `parse_coursera_response` for one item.  Mirrors the
source statement by statement: url building (falsy path gives `None`),
difficulty lower-casing (conditional expression: falsy gives `None`),
duration lower-casing with underscores replaced (statement `if`: a falsy
value is kept as is), rating rounding, then the `CourseSchema(...)` call
whose `partners`/`partnerLogos` arguments index `[0]` into the lists
defaulted to `[None]` (an `IndexError` on a present-but-empty list). -/
def parseCourseraItem (item : CourseraItem) : Except PyErr Course :=
  let full_url :=
    if pyTruthyStr item.url then
      item.url.map (fun p => "https://www.coursera.org" ++ p)
    else none
  let difficulty :=
    if pyTruthyStr item.productDifficultyLevel then
      item.productDifficultyLevel.map pyLower
    else none
  let duration :=
    match item.productDuration with
    | none => none
    | some d => if d == "" then some d else some (pyReplaceUnderscore (pyLower d))
  let avg_rating := item.avgProductRating.map pyRound1
  match pyIndex0 (getListDefaultNone item.partners) with
  | Except.error e => Except.error e
  | Except.ok provider =>
    match pyIndex0 (getListDefaultNone item.partnerLogos) with
    | Except.error e => Except.error e
    | Except.ok provider_img =>
      mkCourseSchema item.name full_url item.imageUrl duration provider
        provider_img difficulty avg_rating item.numProductRatings
        (item.skills.map (fun l => l.map some)) none

/-- The `for item in elements` loop of `parse_coursera_response`: results are
appended in order and any exception aborts the whole batch (the function has
no per-item handler). -/
def parseCourseraList : List CourseraItem → Except PyErr (List Course)
  | [] => Except.ok []
  | it :: rest =>
    match parseCourseraItem it with
    | Except.error e => Except.error e
    | Except.ok c =>
      match parseCourseraList rest with
      | Except.error e => Except.error e
      | Except.ok cs => Except.ok (c :: cs)

/-- Function `parse_coursera_response` of `app/services/coursera.py`. -/
def parse_coursera_response (data : CourseraResponse) : Except PyErr (List Course) :=
  match data.elements with
  | none => Except.ok []
  | some els => parseCourseraList els

/-! ## Udemy adapter (`app/services/udemy.py`) -/

/-- The Python `date` parser `datetime.strptime(s, "%Y-%m-%d").date()`:
the string must be three dash-separated numeric fields forming a
sensible calendar date, otherwise a `ValueError` is raised. -/
def strptimeYmd (s : String) : Except PyErr PyDate :=
  match splitOnChar '-' s.data [] with
  | [y, m, d] =>
    match digitsToNat y, digitsToNat m, digitsToNat d with
    | some yn, some mn, some dn =>
      if 1 ≤ mn && mn ≤ 12 && 1 ≤ dn && dn ≤ 31 then Except.ok ⟨yn, mn, dn⟩
      else Except.error PyErr.valueError
    | _, _, _ => Except.error PyErr.valueError
  | _ => Except.error PyErr.valueError

/-- One entry of the `instructors` array of a Udemy course. -/
structure UdemyInstructor where
  name : Option String
  deriving Repr, DecidableEq

/-- The nested `rating` object of a Udemy course. -/
structure UdemyRating where
  average : Option Rat
  count : Option Int
  deriving Repr, DecidableEq

/-- The `images` object of a Udemy course (only the variant the code
reads). -/
structure UdemyImages where
  px240x135 : Option String
  deriving Repr, DecidableEq

/-- The `course` object inside one Udemy search result. -/
structure UdemyCourseData where
  durationInSeconds : Option Nat
  images : Option UdemyImages
  instructors : Option (List UdemyInstructor)
  level : Option String
  updatedOn : Option String
  rating : Option UdemyRating
  title : Option String
  urlCourseLanding : Option String
  learningOutcomes : Option (List String)
  deriving Repr, DecidableEq

/-- One element of `data["data"]["courseSearch"]["results"]`. -/
structure UdemyItem where
  course : Option UdemyCourseData
  deriving Repr, DecidableEq

/-- Result of `item.get("course", {})` on a missing key: a dict on which every
`.get` returns `None`. -/
def emptyUdemyCourseData : UdemyCourseData :=
  ⟨none, none, none, none, none, none, none, none, none⟩

/-- The Udemy response after `data.get("data", {}).get("courseSearch",
{}).get("results", [])`; `none` models a missing/invalid path (the code
then iterates nothing or returns `[]`). -/
structure UdemyResponse where
  results : Option (List UdemyItem)
  deriving Repr, DecidableEq

/-- The `f"{hours}h {minutes}m"` duration synthesis of
`parse_udemy_response`: `divmod(duration, 3600)` and integer division of
the remainder by 60. -/
def udemyDurationString (d : Nat) : String :=
  toString (d / 3600) ++ "h " ++ toString ((d % 3600) / 60) ++ "m"

/-- The loop body of `parse_udemy_response` for one item.  The state
`locals` carries the values of the local variables `avg_rating` and
`count_rating`, which the source assigns only inside `if rating:`;
`none` means they are unbound and reading them raises `NameError`.
Mirrored statement order: duration, provider, difficulty, rating
(`round(None, 1)` is a `TypeError`), updatedOn (`strptime` may raise
`ValueError`), then the `CourseSchema(...)` argument evaluation —
`title.strip()` and `images.get(...)` raise `AttributeError` on `None`,
the `avg_rating`/`count_rating` reads raise `NameError` when unbound —
and finally pydantic validation (which also rejects the raw empty
`instructors` list and a kept falsy integer duration). -/
def parseUdemyItem (locals : Option (Rat × Option Int)) (item : UdemyItem) :
    Except PyErr (Course × Option (Rat × Option Int)) :=
  let c := item.course.getD emptyUdemyCourseData
  let duration :=
    match c.durationInSeconds with
    | none => none
    | some d => if d == 0 then none else some (udemyDurationString d)
  let durationKeptFalsyInt := c.durationInSeconds == some 0
  let providerRawEmptyList := c.instructors == some []
  let provider :=
    match c.instructors with
    | some (i :: _) => i.name
    | _ => none
  let difficulty :=
    match c.level with
    | none => none
    | some s => if s == "" then some s else some (pyReplaceUnderscore (pyLower s))
  let ratingStep : Except PyErr (Option (Rat × Option Int)) :=
    match c.rating with
    | none => Except.ok locals
    | some r =>
      match r.average with
      | none => Except.error PyErr.typeError
      | some q => Except.ok (some (pyRound1 q, r.count))
  match ratingStep with
  | Except.error e => Except.error e
  | Except.ok locals' =>
    let dateStep : Except PyErr Unit :=
      match c.updatedOn with
      | none => Except.ok ()
      | some s =>
        if s == "" then Except.ok ()
        else
          match strptimeYmd s with
          | Except.error e => Except.error e
          | Except.ok _ => Except.ok ()
    match dateStep with
    | Except.error e => Except.error e
    | Except.ok _ =>
      match c.title with
      | none => Except.error PyErr.attributeError
      | some t =>
        match c.images with
        | none => Except.error PyErr.attributeError
        | some im =>
          match locals' with
          | none => Except.error PyErr.nameError
          | some (avg, cnt) =>
            if providerRawEmptyList || durationKeptFalsyInt then
              Except.error PyErr.validationError
            else
              match mkCourseSchema (some (pyStrip t)) c.urlCourseLanding
                  im.px240x135 duration provider none difficulty (some avg)
                  cnt (c.learningOutcomes.map (fun l => l.map some)) none with
              | Except.error e => Except.error e
              | Except.ok course => Except.ok (course, locals')

/-- The `for item in elements` loop of `parse_udemy_response`: no per-item
handler, so any exception aborts the batch; the conditionally-assigned
rating locals persist from one iteration to the next. -/
def parseUdemyList (locals : Option (Rat × Option Int)) :
    List UdemyItem → Except PyErr (List Course)
  | [] => Except.ok []
  | it :: rest =>
    match parseUdemyItem locals it with
    | Except.error e => Except.error e
    | Except.ok (c, locals') =>
      match parseUdemyList locals' rest with
      | Except.error e => Except.error e
      | Except.ok cs => Except.ok (c :: cs)

/-- Function `parse_udemy_response` of `app/services/udemy.py`.  The rating locals
start unbound. -/
def parse_udemy_response (data : UdemyResponse) : Except PyErr (List Course) :=
  match data.results with
  | none => Except.ok []
  | some items => parseUdemyList none items

/-! ## edX adapter (`app/services/edx.py`) -/

/-- One entry of the `owners` array of an edX hit. -/
structure EdxOwner where
  name : Option String
  logoImageUrl : Option String
  deriving Repr, DecidableEq

/-- One entry of the `skills` array of an edX hit. -/
structure EdxSkill where
  skill : Option String
  deriving Repr, DecidableEq

/-- One element of `data["results"][0]["hits"]`. -/
structure EdxItem where
  title : Option String
  marketing_url : Option String
  card_image_url : Option String
  weeks_to_complete : Option Nat
  owners : Option (List EdxOwner)
  level : Option (List String)
  skills : Option (List EdxSkill)
  deriving Repr, DecidableEq

/-- One element of the top-level `results` array of the edX response. -/
structure EdxResult where
  hits : List EdxItem
  deriving Repr, DecidableEq

/-- The edX (Algolia) response body. -/
structure EdxResponse where
  results : List EdxResult
  deriving Repr, DecidableEq

/-- The `for item in hits` body of `parse_edx_response`, which runs inside
a per-item `try`/`except` (any exception skips the item).  The state
`pimg` carries the local `provider_img`, assigned only when the `owners`
list is truthy; `none` means unbound, and the `CourseSchema(...)` call
reads it (`NameError` when unbound, caught, item skipped).  The
`difficulty` argument indexes `item.get("level", [None])[0]`
(`IndexError` on a present-but-empty list, caught).  A falsy
`weeks_to_complete` keeps the raw integer, which pydantic then rejects
(caught).  Skills are projected with `x.get('skill')`; `None` entries
fail the `List[str]` validation (caught). -/
def parseEdxItem (pimg : Option (Option String)) (item : EdxItem) :
    Option Course × Option (Option String) :=
  let owner := item.owners.getD []
  let providerAndImg :=
    match owner with
    | o :: _ => (o.name, some o.logoImageUrl)
    | [] => ((none : Option String), pimg)
  let provider := providerAndImg.1
  let pimg' := providerAndImg.2
  let durationKeptFalsyInt := item.weeks_to_complete == some 0
  let duration :=
    match item.weeks_to_complete with
    | none => none
    | some w => if w == 0 then none else some (toString w ++ " weeks")
  let skills : Option (List (Option String)) :=
    match item.skills with
    | none => none
    | some l => some (l.map (fun s => s.skill))
  match item.title with
  | none => (none, pimg')
  | some t =>
    match pimg' with
    | none => (none, pimg')
    | some pimgVal =>
      match pyIndex0 (getListDefaultNone item.level) with
      | Except.error _ => (none, pimg')
      | Except.ok difficulty =>
        if durationKeptFalsyInt then (none, pimg')
        else
          match mkCourseSchema (some (pyStrip t)) item.marketing_url
              item.card_image_url duration provider pimgVal difficulty
              none none skills none with
          | Except.error _ => (none, pimg')
          | Except.ok c => (some c, pimg')

/-- The hits loop of `parse_edx_response`: skipped items contribute
nothing, and the conditionally-assigned `provider_img` local persists
between iterations. -/
def parseEdxList (pimg : Option (Option String)) :
    List EdxItem → List Course
  | [] => []
  | it :: rest =>
    match parseEdxItem pimg it with
    | (some c, pimg') => c :: parseEdxList pimg' rest
    | (none, pimg') => parseEdxList pimg' rest

/-- Function `parse_edx_response` of `app/services/edx.py`: `None` data or an empty
`results` array yields `[]`; otherwise the hits of `results[0]` are
parsed with the `provider_img` local initially unbound.  The outer
`try`/`except` means the function never raises. -/
def parse_edx_response (data : Option EdxResponse) : List Course :=
  match data with
  | none => []
  | some d =>
    match d.results with
    | [] => []
    | r :: _ => parseEdxList none r.hits

/-- Outcome of one upstream attempt inside the retry loop of
`fetch_edx_courses`: an HTTP status (with a body for 200), a timeout, or
one of the caught exception classes. -/
inductive EdxAttempt where
  | ok200 (body : EdxResponse)
  | rateLimited
  | otherStatus (code : Nat)
  | timeout
  | httpStatusErr
  | requestErr
  | unexpectedErr
  deriving Repr, DecidableEq

/-- Constant `MAX_RETRIES` of `app/services/edx.py`. -/
def MAX_RETRIES : Nat := 2

/-- The `for attempt in range(MAX_RETRIES + 1)` loop of
`fetch_edx_courses`, run against a script of upstream outcomes (one per
attempt).  Returns the data (`None` on give-up), the number of attempts
performed, and the list of back-off sleep durations in seconds: HTTP 429
sleeps `2 ** attempt` (doubling), a timeout sleeps `1`; other statuses
and the caught exception classes return `None` immediately. -/
def fetchEdxFrom : Nat → List EdxAttempt → Option EdxResponse × Nat × List Nat
  | attempt, [] => (none, attempt, [])
  | attempt, r :: rest =>
    match r with
    | EdxAttempt.ok200 body => (some body, attempt + 1, [])
    | EdxAttempt.rateLimited =>
      if attempt < MAX_RETRIES then
        match fetchEdxFrom (attempt + 1) rest with
        | (d, a, s) => (d, a, (2 ^ attempt) :: s)
      else (none, attempt + 1, [])
    | EdxAttempt.otherStatus _ => (none, attempt + 1, [])
    | EdxAttempt.timeout =>
      if attempt < MAX_RETRIES then
        match fetchEdxFrom (attempt + 1) rest with
        | (d, a, s) => (d, a, 1 :: s)
      else (none, attempt + 1, [])
    | EdxAttempt.httpStatusErr => (none, attempt + 1, [])
    | EdxAttempt.requestErr => (none, attempt + 1, [])
    | EdxAttempt.unexpectedErr => (none, attempt + 1, [])

/-- Function `fetch_edx_courses` of `app/services/edx.py`: a blank query returns
`None` before any attempt; otherwise the retry loop runs from attempt 0. -/
def fetch_edx_courses (query : String) (script : List EdxAttempt) :
    Option EdxResponse × Nat × List Nat :=
  if pyStrip query == "" then (none, 0, [])
  else fetchEdxFrom 0 script

/-- Function `get_edx_courses` of `app/services/edx.py`: blank queries return `[]`,
`num_items` is clamped to `[1, 50]`, the raw data is fetched (scripted
upstream) and parsed; a `None` fetch result yields `[]`. -/
def get_edx_courses (query : String) (numItems : Int)
    (script : List EdxAttempt) : List Course :=
  if pyStrip query == "" then []
  else
    let _ := max 1 (min numItems 50)
    match (fetch_edx_courses (pyStrip query) script).1 with
    | none => []
    | some data => parse_edx_response (some data)

/-! ## YouTube adapter (`app/services/youtube.py`) -/

/-- A thumbnail object (`{"url": ...}`). -/
structure YtThumb where
  url : Option String
  deriving Repr, DecidableEq

/-- The `thumbnails` object of a video snippet. -/
structure YtThumbs where
  high : Option YtThumb
  medium : Option YtThumb
  thumbDefault : Option YtThumb
  deriving Repr, DecidableEq

/-- The `snippet` object of a video item. -/
structure YtSnippet where
  title : Option String
  thumbnails : Option YtThumbs
  channelTitle : Option String
  publishedAt : Option String
  deriving Repr, DecidableEq

/-- The `contentDetails` object of a video item. -/
structure YtContentDetails where
  duration : Option String
  deriving Repr, DecidableEq

/-- One element of the `items` array of the video-details response. -/
structure YtVideoItem where
  id : Option String
  snippet : Option YtSnippet
  contentDetails : Option YtContentDetails
  deriving Repr, DecidableEq

/-- The video-details response (`data.get("items", [])`). -/
structure YtResponse where
  items : Option (List YtVideoItem)
  deriving Repr, DecidableEq

/-- One optional regex component `(\d+)X` of the duration pattern: digits
count only when immediately followed by the unit letter, otherwise the
input is left untouched (as `re.match` backtracks over the optional
group). -/
def parseIntComp (cs : List Char) (unit : Char) : Option Nat × List Char :=
  let ds := cs.takeWhile Char.isDigit
  match ds with
  | [] => (none, cs)
  | _ =>
    match cs.drop ds.length with
    | c :: rest => if c == unit then (digitsToNat ds, rest) else (none, cs)
    | [] => (none, cs)

/-- Function `convert_youtube_duration` of `app/services/youtube.py`: a falsy or
non-`PT` input gives `None`; otherwise the optional hour, minute and
second components are parsed in order and formatted as hours+minutes if
hours are positive, else minutes if positive, else seconds. -/
def convert_youtube_duration (iso : String) : Option String :=
  if iso == "" || !(List.isPrefixOf (("PT").toList) iso.toList) then none
  else
    let cs := iso.data.drop 2
    let h := parseIntComp cs 'H'
    let m := parseIntComp h.2 'M'
    let s := parseIntComp m.2 'S'
    let hours := h.1.getD 0
    let minutes := m.1.getD 0
    let seconds := s.1.getD 0
    if hours > 0 then some (toString hours ++ "h " ++ toString minutes ++ "m")
    else if minutes > 0 then some (toString minutes ++ "m")
    else some (toString seconds ++ "s")

/-- Model of `datetime.fromisoformat(s).date()`: the first ten characters must form
a calendar date and any remainder must be a `T`-separated time part. -/
def fromIsoDate (s : String) : Except PyErr PyDate :=
  let rest := s.data.drop 10
  if rest.isEmpty || List.isPrefixOf ['T'] rest then
    strptimeYmd (String.mk (s.data.take 10))
  else Except.error PyErr.valueError

/-- The `for item in items` body of `parse_youtube_response`, inside a
per-item `try`/`except`.  Items with a falsy id or title are skipped by
the explicit guard.  The thumbnail is the `or`-chain over high, medium
and default.  A truthy `contentDetails.duration` goes through
`convert_youtube_duration`; a falsy one is kept as is.  The state `pd`
carries the local `publish_date`, assigned only when `publishedAt` is
truthy (a `fromisoformat` failure raises, caught, item skipped; reading
it unbound raises `NameError`, caught, item skipped).  The call passes
`course_date=publish_date`, which `CourseSchema` discards. -/
def parseYtItem (pd : Option PyDate) (item : YtVideoItem) :
    Option Course × Option PyDate :=
  let snippet := item.snippet.getD ⟨none, none, none, none⟩
  let cd := item.contentDetails.getD ⟨none⟩
  match item.id with
  | none => (none, pd)
  | some vid =>
    if vid == "" then (none, pd)
    else
      match snippet.title with
      | none => (none, pd)
      | some title =>
        if title == "" then (none, pd)
        else
          let thumbs := snippet.thumbnails.getD ⟨none, none, none⟩
          let thumbUrl := fun (t : Option YtThumb) => (t.getD ⟨none⟩).url
          let thumb := pyOr (thumbUrl thumbs.high)
            (pyOr (thumbUrl thumbs.medium) (thumbUrl thumbs.thumbDefault))
          let duration :=
            match cd.duration with
            | none => none
            | some s => if s == "" then some s else convert_youtube_duration s
          let dateStep : Except PyErr (Option PyDate) :=
            match snippet.publishedAt with
            | none => Except.ok pd
            | some s =>
              if s == "" then Except.ok pd
              else
                match fromIsoDate s with
                | Except.error e => Except.error e
                | Except.ok d => Except.ok (some d)
          match dateStep with
          | Except.error _ => (none, pd)
          | Except.ok pd' =>
            match pd' with
            | none => (none, pd')
            | some d =>
              match mkCourseSchema (some (pyStrip title))
                  (some ("https://youtube.com/watch?v=" ++ vid)) thumb
                  duration snippet.channelTitle none none none none none
                  (some d) with
              | Except.error _ => (none, pd')
              | Except.ok c => (some c, pd')

/-- The items loop of `parse_youtube_response`, threading the
conditionally-assigned `publish_date` local. -/
def parseYtList (pd : Option PyDate) : List YtVideoItem → List Course
  | [] => []
  | it :: rest =>
    match parseYtItem pd it with
    | (some c, pd') => c :: parseYtList pd' rest
    | (none, pd') => parseYtList pd' rest

/-- Function `parse_youtube_response` of `app/services/youtube.py`: the
`publish_date` local starts unbound; skipped items never abort the batch. -/
def parse_youtube_response (data : YtResponse) : List Course :=
  parseYtList none (data.items.getD [])

/-! ## Router (`app/routers/resources.py`) -/

/-- The `Language` enum of `app/routers/resources.py` (named `AppLanguage`
here because Mathlib already declares a root `Language`). -/
inductive AppLanguage where
  | es
  | en
  deriving Repr, DecidableEq

/-- The `.value` of a `Language` member. -/
def AppLanguage.val : AppLanguage → String
  | AppLanguage.es => "es"
  | AppLanguage.en => "en"

/-- Hexadecimal digit for percent-encoding (upper case, as
`urllib.parse.quote`). -/
def hexDigitChar (n : Nat) : Char :=
  if n < 10 then Char.ofNat (48 + n) else Char.ofNat (55 + n)

/-- Bytes `urllib.parse.quote` leaves as-is with the default `safe='/'`:
ASCII letters, digits, `_ . - ~` and `/`. -/
def quoteKeepsByte (n : Nat) : Bool :=
  (65 ≤ n && n ≤ 90) || (97 ≤ n && n ≤ 122) || (48 ≤ n && n ≤ 57) ||
  n == 95 || n == 46 || n == 45 || n == 126 || n == 47

/-- Model of `urllib.parse.quote(s)`: percent-encodes every UTF-8 byte outside the
kept set. -/
def pythonQuote (s : String) : String :=
  (s.toUTF8.toList.map (fun b =>
    if quoteKeepsByte b.toNat then String.mk [Char.ofNat b.toNat]
    else String.mk ['%', hexDigitChar (b.toNat / 16), hexDigitChar (b.toNat % 16)])).foldl
    (fun a b => a ++ b) ""

/-- One platform's entry in the response of `search_courses`: the courses
plus the redirect URL. -/
structure PlatformResult where
  courses : List Course
  redirect_url : String
  deriving Repr, DecidableEq

/-- Observable events of the router body: the invocation and the
completion (terminal outcome) of one adapter call. -/
inductive RouterEv where
  | invoke (platform : String)
  | complete (platform : String)
  deriving Repr, DecidableEq

/-- One `try: ... await get_X_courses(...) except Exception: ... = []`
block of `search_courses`: the call starts, runs to its terminal outcome
(the `await` completes or raises), and a raised exception degrades the
platform to an empty list.  The first component records the two events in
order; the second is the value of the local after the block. -/
def callAdapter (platform : String) (outcome : Except String (List Course)) :
    List RouterEv × List Course :=
  ([RouterEv.invoke platform, RouterEv.complete platform],
   match outcome with
   | Except.ok cs => cs
   | Except.error _ => [])

/-- Function `search_courses` of `app/routers/resources.py`.  The four adapter
outcomes are the environment of the four awaited calls (an `Except.error`
models the call raising).  A blank query raises `HTTPException(400)`
before any adapter runs; otherwise the response dictionary is the nested
association list `{"results": {coursera, edx, udemy, youtube}}` with the
redirect URLs built from the encoded query and the per-platform language
codes. -/
def search_courses (q : String) (lang : AppLanguage)
    (courseraR edxR udemyR youtubeR : Except String (List Course)) :
    Except Nat (List (String × List (String × PlatformResult))) :=
  if pyStrip q == "" then Except.error 400
  else
    let query := pyStrip q
    let encoded_query := pythonQuote query
    let lcCoursera := match lang with
      | AppLanguage.es => "Spanish"
      | AppLanguage.en => "English"
    let lcEdx := match lang with
      | AppLanguage.es => "Spanish"
      | AppLanguage.en => "English"
    let lcUdemy := pyUpper (AppLanguage.val lang)
    let lcYoutube := match lang with
      | AppLanguage.es => "curso+completo+espa√±ol"
      | AppLanguage.en => "full+course"
    let coursera_courses := (callAdapter ("coursera") courseraR).2
    let edx_courses := (callAdapter ("edx") edxR).2
    let udemy_courses := (callAdapter ("udemy") udemyR).2
    let youtube_courses := (callAdapter ("youtube") youtubeR).2
    let coursera_url := "https://coursera.org/search?query=" ++ encoded_query
      ++ "&language=" ++ lcCoursera
    let edx_url := "https://www.edx.org/search?q=" ++ encoded_query
      ++ "&language=" ++ lcEdx ++ "&availability=Available+now"
    let udemy_url := "https://www.udemy.com/courses/search/?lang=" ++ lcUdemy
      ++ "&price=price-free&q=" ++ encoded_query
    let youtube_url := "https://www.youtube.com/results?search_query="
      ++ encoded_query ++ "+" ++ lcYoutube
    Except.ok [("results",
      [("coursera", ⟨coursera_courses, coursera_url⟩),
       ("edx", ⟨edx_courses, edx_url⟩),
       ("udemy", ⟨udemy_courses, udemy_url⟩),
       ("youtube", ⟨youtube_courses, youtube_url⟩)])]

/-- The event trace of the `search_courses` body: the source awaits the
four adapter calls one after another (`await get_coursera_courses`, then
`await get_edx_courses`, then `await get_udemy_courses`, then
`await get_youtube_courses`, resources.py lines 52-75), so the events of
each `try` block are emitted strictly before the next block begins.  A
blank query raises before any adapter is invoked. -/
def search_courses_events (q : String)
    (courseraR edxR udemyR youtubeR : Except String (List Course)) :
    List RouterEv :=
  if pyStrip q == "" then []
  else
    (callAdapter ("coursera") courseraR).1 ++ (callAdapter ("edx") edxR).1
      ++ (callAdapter ("udemy") udemyR).1
      ++ (callAdapter ("youtube") youtubeR).1

/-! ## Helper lemmas -/

theorem isValidHttpUrl_ne_empty {s : String} (h : isValidHttpUrl s = true) :
    s ≠ "" := by
  intro he
  rw [he] at h
  exact absurd h (by decide)

theorem string_toList_append (s t : String) :
    (s ++ t).toList = s.toList ++ t.toList := by
  simp [String.toList, String.data_append]

theorem append_ne_empty_left {s : String} (t : String) (h : s ≠ "") :
    (s ++ t) ≠ "" := by
  intro he
  apply h
  have hd := congrArg String.data he
  rw [String.data_append] at hd
  exact String.ext (List.append_eq_nil.mp hd).1

theorem rat_floor_eq_intFloor (q : Rat) : q.floor = ⌊q⌋ := by
  rw [Rat.floor_def', Rat.floor_def]

theorem isValidHttpUrl_coursera_append (p : String) :
    isValidHttpUrl ("https://www.coursera.org" ++ p) = true := by
  unfold isValidHttpUrl
  rw [Bool.or_eq_true]
  refine Or.inr ?_
  rw [Bool.and_eq_true]
  constructor
  · rw [List.isPrefixOf_iff_prefix, string_toList_append]
    exact List.IsPrefix.trans (by decide) (List.prefix_append _ _)
  · rw [string_toList_append]
    simp only [List.length_append, decide_eq_true_eq]
    have : (("https://www.coursera.org").toList).length = 24 := by decide
    omega

/-! ## Claim theorems -/

/-- C5: the edX fetch retries transient failures (timeout and HTTP 429) up
to `MAX_RETRIES = 2` additional attempts before giving up and returning
empty, sleeping 1 s after a timeout and `2 ** attempt` (doubling) after a
rate limit; in particular a first response of HTTP 429 followed by a 200
with valid data makes `get_edx_courses` return the courses parsed from
the second attempt, with exactly 2 attempts elapsed. -/
theorem claim5_edx_retry (body : EdxResponse) (rest : List EdxAttempt) :
    fetch_edx_courses ("python")
        (EdxAttempt.rateLimited :: EdxAttempt.ok200 body :: rest)
      = (some body, 2, [1])
    ∧ get_edx_courses ("python") 6
        (EdxAttempt.rateLimited :: EdxAttempt.ok200 body :: rest)
      = parse_edx_response (some body)
    ∧ fetch_edx_courses ("python")
        (EdxAttempt.rateLimited :: EdxAttempt.rateLimited ::
          EdxAttempt.rateLimited :: rest)
      = (none, 3, [1, 2])
    ∧ fetch_edx_courses ("python")
        (EdxAttempt.timeout :: EdxAttempt.timeout :: EdxAttempt.timeout :: rest)
      = (none, 3, [1, 1])
    ∧ get_edx_courses ("python") 6
        (EdxAttempt.rateLimited :: EdxAttempt.rateLimited ::
          EdxAttempt.rateLimited :: rest)
      = []
    ∧ get_edx_courses ("python") 6
        (EdxAttempt.rateLimited :: EdxAttempt.ok200 ⟨[⟨[⟨some ("Intro CS"),
            some ("https://www.edx.org/course/cs"), none, some 4,
            some [⟨some ("MIT"), none⟩], none, none⟩]⟩]⟩ :: rest)
      = [⟨"Intro CS", "https://www.edx.org/course/cs", none, some ("4 weeks"),
          some ("MIT"), none, none, none, none, none⟩] :=
  ⟨rfl, rfl, rfl, rfl, rfl, rfl⟩

/-- C6: duration formatting.  A Udemy `durationInSeconds = 5400` produces
the duration string `"1h 30m"` (integer division, minutes truncated); the
YouTube converter turns `"PT1H5M"` into `"1h 5m"` and `"PT45S"` into
`"45s"`, showing hours+minutes when hours are positive (`"PT2H"` gives
`"2h 0m"`), else minutes when positive (`"PT5M"` gives `"5m"`), else
seconds. -/
theorem claim6_duration_formatting :
    (parse_udemy_response ⟨some [⟨some ⟨some 5400, some ⟨none⟩, none, none,
        none, some ⟨some 4, some 7⟩, some ("Py"),
        some ("https://www.udemy.com/course/py/"), none⟩⟩]⟩).map
      (fun l => l.map Course.duration) = Except.ok [some ("1h 30m")]
    ∧ udemyDurationString 5400 = "1h 30m"
    ∧ convert_youtube_duration ("PT1H5M") = some ("1h 5m")
    ∧ convert_youtube_duration ("PT45S") = some ("45s")
    ∧ convert_youtube_duration ("PT2H") = some ("2h 0m")
    ∧ convert_youtube_duration ("PT5M") = some ("5m") :=
  ⟨rfl, rfl, rfl, rfl, rfl, rfl⟩

/-- C9: whenever an upstream average rating is present (Coursera
`avgProductRating`, Udemy `rating.average`), the normalized `avg_rating`
equals that value rounded to one decimal place; in particular
`4.666... = 14/3` normalizes to `4.7`. -/
theorem claim9_rating_rounding (q : Rat) :
    parse_coursera_response ⟨some [⟨some ("ML"), some ("/learn/ml"), none,
        none, none, some q, some 120, none, none, none⟩]⟩
      = Except.ok [⟨"ML", "https://www.coursera.org/learn/ml", none, none,
          none, none, none, some (pyRound1 q), some 120, none⟩]
    ∧ parse_udemy_response ⟨some [⟨some ⟨none, some ⟨none⟩, none, none, none,
        some ⟨some q, some 7⟩, some ("Py"),
        some ("https://www.udemy.com/course/py/"), none⟩⟩]⟩
      = Except.ok [⟨"Py", "https://www.udemy.com/course/py/", none, none,
          none, none, none, some (pyRound1 q), some 7, none⟩]
    ∧ pyRound1 (14 / 3) = 47 / 10 :=
  ⟨rfl, rfl, by
    have hq : (14 : Rat) / 3 * 10 = 140 / 3 := by norm_num
    have h : ((140 : Rat) / 3).floor = 46 := by
      rw [rat_floor_eq_intFloor]; norm_num
    unfold pyRound1 roundHalfEvenInt
    rw [hq, h]
    norm_num⟩

/-- C10: in `parse_udemy_response` the locals `avg_rating` and
`count_rating` are assigned only inside `if rating:`.  A batch whose
first item lacks a rating object aborts with `NameError` while building
that item's record (no per-item handler), and the router's
`except Exception` then degrades the platform to an empty list; a later
item lacking a rating silently reuses the previous item's values. -/
theorem claim10_unbound_rating_locals (rest : List UdemyItem) (e : String) :
    parse_udemy_response ⟨some (⟨some ⟨none, some ⟨none⟩, none, none, none,
        none, some ("A"), some ("https://www.udemy.com/course/a/"),
        none⟩⟩ :: rest)⟩
      = Except.error PyErr.nameError
    ∧ parse_udemy_response ⟨some [⟨some ⟨none, some ⟨none⟩, none, none, none,
        some ⟨some 4, some 10⟩, some ("A"),
        some ("https://www.udemy.com/course/a/"), none⟩⟩,
        ⟨some ⟨none, some ⟨none⟩, none, none, none, none, some ("B"),
        some ("https://www.udemy.com/course/b/"), none⟩⟩]⟩
      = Except.ok [⟨"A", "https://www.udemy.com/course/a/", none, none, none,
          none, none, some (pyRound1 4), some 10, none⟩,
          ⟨"B", "https://www.udemy.com/course/b/", none, none, none, none,
          none, some (pyRound1 4), some 10, none⟩]
    ∧ (callAdapter ("udemy") (Except.error e)).2 = [] :=
  ⟨rfl, rfl, rfl⟩

/-- C8: `CourseSchema` declares no publish/update date field, so the
`course_date=` keyword passed by the Udemy and YouTube parsers is
silently discarded by pydantic: the constructor result is independent of
the date argument, a Udemy batch parses to the same records with and
without `updatedOn`, and the produced record carries no date value at
all — contradicting the spec's `published_or_updated_date` field, which
the code clearly intends to populate (it parses the date and passes it). -/
theorem claim8_date_field_dropped :
    (∀ (title url image_url duration provider provider_img
        difficulty : Option String) (avg : Option Rat) (cnt : Option Int)
        (sk : Option (List (Option String))) (d1 d2 : Option PyDate),
        mkCourseSchema title url image_url duration provider provider_img
            difficulty avg cnt sk d1
          = mkCourseSchema title url image_url duration provider provider_img
            difficulty avg cnt sk d2)
    ∧ parse_udemy_response ⟨some [⟨some ⟨none, some ⟨none⟩, none, none,
        some ("2024-01-15"), some ⟨some 4, some 7⟩, some ("Py"),
        some ("https://www.udemy.com/course/py/"), none⟩⟩]⟩
      = parse_udemy_response ⟨some [⟨some ⟨none, some ⟨none⟩, none, none,
        none, some ⟨some 4, some 7⟩, some ("Py"),
        some ("https://www.udemy.com/course/py/"), none⟩⟩]⟩
    ∧ parse_udemy_response ⟨some [⟨some ⟨none, some ⟨none⟩, none, none,
        some ("2024-01-15"), some ⟨some 4, some 7⟩, some ("Py"),
        some ("https://www.udemy.com/course/py/"), none⟩⟩]⟩
      = Except.ok [⟨"Py", "https://www.udemy.com/course/py/", none, none,
          none, none, none, some (pyRound1 4), some 7, none⟩]
    ∧ parse_youtube_response ⟨some [⟨some ("vid1"), some ⟨some ("T"), none,
        some ("Chan"), some ("2024-01-15")⟩, some ⟨some ("PT2H")⟩⟩]⟩
      = parse_youtube_response ⟨some [⟨some ("vid1"), some ⟨some ("T"), none,
        some ("Chan"), some ("1999-12-31")⟩, some ⟨some ("PT2H")⟩⟩]⟩ :=
  ⟨fun _ _ _ _ _ _ _ _ _ _ _ _ => rfl, rfl, rfl, rfl⟩

/-- C1 counterexample: `search_courses` does not return a mapping whose
keys are the four platform names — the returned dictionary has the single
key `"results"`, under which the platform mapping is nested. -/
theorem claim1_counterexample :
    (search_courses ("python") AppLanguage.en (Except.error ("boom"))
        (Except.ok []) (Except.ok []) (Except.ok [])).map
      (fun r => r.map Prod.fst) = Except.ok ["results"]
    ∧ (["results"] : List String) ≠ ["coursera", "edx", "udemy", "youtube"] :=
  ⟨rfl, by decide⟩

/-- C1 (amended): for every valid non-empty query, `search_courses`
returns, under the single top-level key `"results"`, a mapping with
exactly the keys coursera, edx, udemy and youtube in that order; each
platform carries a non-empty `redirect_url`, an adapter call that raises
degrades that platform's courses to the empty list, and a successful
adapter call contributes its list unchanged — no exception escapes
`search_courses`. -/
theorem claim1_results_mapping (q : String) (lang : AppLanguage)
    (a b c d : Except String (List Course)) (h : pyStrip q ≠ "") :
    ∃ u1 u2 u3 u4 : String,
      search_courses q lang a b c d = Except.ok [("results",
        [("coursera", ⟨(callAdapter ("coursera") a).2, u1⟩),
         ("edx", ⟨(callAdapter ("edx") b).2, u2⟩),
         ("udemy", ⟨(callAdapter ("udemy") c).2, u3⟩),
         ("youtube", ⟨(callAdapter ("youtube") d).2, u4⟩)])]
      ∧ u1 ≠ "" ∧ u2 ≠ "" ∧ u3 ≠ "" ∧ u4 ≠ ""
      ∧ (∀ e, a = Except.error e → (callAdapter ("coursera") a).2 = [])
      ∧ (∀ e, b = Except.error e → (callAdapter ("edx") b).2 = [])
      ∧ (∀ e, c = Except.error e → (callAdapter ("udemy") c).2 = [])
      ∧ (∀ e, d = Except.error e → (callAdapter ("youtube") d).2 = [])
      ∧ (∀ l, a = Except.ok l → (callAdapter ("coursera") a).2 = l)
      ∧ (∀ l, b = Except.ok l → (callAdapter ("edx") b).2 = l)
      ∧ (∀ l, c = Except.ok l → (callAdapter ("udemy") c).2 = l)
      ∧ (∀ l, d = Except.ok l → (callAdapter ("youtube") d).2 = l) := by
  have hb : (pyStrip q == "") = false := beq_eq_false_iff_ne.mpr h
  refine ⟨"https://coursera.org/search?query=" ++ pythonQuote (pyStrip q)
      ++ "&language=" ++ (match lang with
        | AppLanguage.es => "Spanish"
        | AppLanguage.en => "English"),
    "https://www.edx.org/search?q=" ++ pythonQuote (pyStrip q)
      ++ "&language=" ++ (match lang with
        | AppLanguage.es => "Spanish"
        | AppLanguage.en => "English") ++ "&availability=Available+now",
    "https://www.udemy.com/courses/search/?lang="
      ++ pyUpper (AppLanguage.val lang) ++ "&price=price-free&q="
      ++ pythonQuote (pyStrip q),
    "https://www.youtube.com/results?search_query="
      ++ pythonQuote (pyStrip q) ++ "+" ++ (match lang with
        | AppLanguage.es => "curso+completo+espa√±ol"
        | AppLanguage.en => "full+course"),
    ?_, ?_, ?_, ?_, ?_, ?_, ?_, ?_, ?_, ?_, ?_, ?_, ?_⟩
  · unfold search_courses
    rw [hb]
    rfl
  · exact append_ne_empty_left _
      (append_ne_empty_left _ (append_ne_empty_left _ (by decide)))
  · exact append_ne_empty_left _ (append_ne_empty_left _
      (append_ne_empty_left _ (append_ne_empty_left _ (by decide))))
  · exact append_ne_empty_left _
      (append_ne_empty_left _ (append_ne_empty_left _ (by decide)))
  · exact append_ne_empty_left _ (append_ne_empty_left _
      (append_ne_empty_left _ (by decide)))
  · intro e he; rw [he]; rfl
  · intro e he; rw [he]; rfl
  · intro e he; rw [he]; rfl
  · intro e he; rw [he]; rfl
  · intro l hl; rw [hl]; rfl
  · intro l hl; rw [hl]; rfl
  · intro l hl; rw [hl]; rfl
  · intro l hl; rw [hl]; rfl

/-- C1 witness: the amended statement holds at the concrete query
`"python"` with a failing Coursera adapter and empty successes elsewhere. -/
theorem claim1_results_mapping_witness :
    ∃ u1 u2 u3 u4 : String,
      search_courses ("python") AppLanguage.en (Except.error ("boom"))
          (Except.ok []) (Except.ok []) (Except.ok [])
        = Except.ok [("results",
        [("coursera", ⟨(callAdapter ("coursera") (Except.error ("boom"))).2, u1⟩),
         ("edx", ⟨(callAdapter ("edx") (Except.ok [])).2, u2⟩),
         ("udemy", ⟨(callAdapter ("udemy") (Except.ok [])).2, u3⟩),
         ("youtube", ⟨(callAdapter ("youtube") (Except.ok [])).2, u4⟩)])]
      ∧ u1 ≠ "" ∧ u2 ≠ "" ∧ u3 ≠ "" ∧ u4 ≠ ""
      ∧ (∀ e, (Except.error ("boom") : Except String (List Course))
            = Except.error e
          → (callAdapter ("coursera") (Except.error ("boom"))).2 = [])
      ∧ (∀ e, (Except.ok [] : Except String (List Course)) = Except.error e
          → (callAdapter ("edx") (Except.ok [])).2 = [])
      ∧ (∀ e, (Except.ok [] : Except String (List Course)) = Except.error e
          → (callAdapter ("udemy") (Except.ok [])).2 = [])
      ∧ (∀ e, (Except.ok [] : Except String (List Course)) = Except.error e
          → (callAdapter ("youtube") (Except.ok [])).2 = [])
      ∧ (∀ l, (Except.error ("boom") : Except String (List Course))
            = Except.ok l
          → (callAdapter ("coursera") (Except.error ("boom"))).2 = l)
      ∧ (∀ l, (Except.ok [] : Except String (List Course)) = Except.ok l
          → (callAdapter ("edx") (Except.ok [])).2 = l)
      ∧ (∀ l, (Except.ok [] : Except String (List Course)) = Except.ok l
          → (callAdapter ("udemy") (Except.ok [])).2 = l)
      ∧ (∀ l, (Except.ok [] : Except String (List Course)) = Except.ok l
          → (callAdapter ("youtube") (Except.ok [])).2 = l) :=
  claim1_results_mapping ("python") AppLanguage.en (Except.error ("boom"))
    (Except.ok []) (Except.ok []) (Except.ok []) (by decide)

/-- C4: the router does not run the adapters concurrently.  In the
embedded execution trace of the `search_courses` body, each adapter call
completes before the next one is invoked — the source awaits
`get_coursera_courses`, `get_edx_courses`, `get_udemy_courses` and
`get_youtube_courses` one after another — so a blocking adapter delays
every later one, contradicting the claimed join of four concurrent,
independent invocations (the comment `Search all platforms concurrently`
at resources.py line 52 notwithstanding). -/
theorem claim4_sequential_adapter_calls (q : String)
    (a b c d : Except String (List Course)) (h : pyStrip q ≠ "") :
    search_courses_events q a b c d
      = [RouterEv.invoke ("coursera"), RouterEv.complete ("coursera"),
         RouterEv.invoke ("edx"), RouterEv.complete ("edx"),
         RouterEv.invoke ("udemy"), RouterEv.complete ("udemy"),
         RouterEv.invoke ("youtube"), RouterEv.complete ("youtube")] := by
  have hb : (pyStrip q == "") = false := beq_eq_false_iff_ne.mpr h
  unfold search_courses_events
  rw [hb]
  rfl

/-- C4 witness: the sequential trace at the concrete query `"python"`. -/
theorem claim4_sequential_adapter_calls_witness :
    search_courses_events ("python") (Except.ok []) (Except.ok [])
        (Except.ok []) (Except.ok [])
      = [RouterEv.invoke ("coursera"), RouterEv.complete ("coursera"),
         RouterEv.invoke ("edx"), RouterEv.complete ("edx"),
         RouterEv.invoke ("udemy"), RouterEv.complete ("udemy"),
         RouterEv.invoke ("youtube"), RouterEv.complete ("youtube")] :=
  claim4_sequential_adapter_calls ("python") (Except.ok []) (Except.ok [])
    (Except.ok []) (Except.ok []) (by decide)

/-- C2 counterexample: a Coursera batch of two items in which the second
lacks the required title does not parse to a sequence of length one — the
`CourseSchema(title=None, ...)` call raises a `ValidationError` that
propagates out of `parse_coursera_response` (it has no per-item handler)
and aborts the whole batch. -/
theorem claim2_counterexample :
    parse_coursera_response ⟨some [⟨some ("ML"), some ("/learn/ml"), none,
        none, none, none, none, none, none, none⟩,
        ⟨none, some ("/learn/y"), none, none, none, none, none, none, none,
        none⟩]⟩
      = Except.error PyErr.validationError :=
  rfl

/-- C2 (amended): the item-skip behaviour holds only for the edX and
YouTube parse functions, whose loop bodies run in a per-item
`try`/`except` — there a batch with one title-less item among healthy
siblings yields exactly the siblings' records.  The Coursera and Udemy
parse functions have no per-item handler: a title-less item raises
(`ValidationError` from pydantic, resp. `AttributeError` from
`None.strip()`) past the parse function, aborting the whole batch, and
the platform then degrades to empty at the router. -/
theorem claim2_item_skip (t1 t3 : String) :
    parse_edx_response (some ⟨[⟨[⟨some t1, some ("https://www.edx.org/course/x"),
        none, some 4, some [⟨some ("MIT"), none⟩], none, none⟩,
        ⟨none, some ("https://www.edx.org/course/y"), none, some 4,
        some [⟨some ("MIT"), none⟩], none, none⟩,
        ⟨some t3, some ("https://www.edx.org/course/z"), none, some 4,
        some [⟨some ("MIT"), none⟩], none, none⟩]⟩]⟩)
      = [⟨pyStrip t1, "https://www.edx.org/course/x", none, some ("4 weeks"),
          some ("MIT"), none, none, none, none, none⟩,
         ⟨pyStrip t3, "https://www.edx.org/course/z", none, some ("4 weeks"),
          some ("MIT"), none, none, none, none, none⟩]
    ∧ parse_youtube_response ⟨some [⟨some ("vid1"), some ⟨some ("Python Course"),
        none, some ("Chan"), some ("2024-01-15")⟩, some ⟨some ("PT2H")⟩⟩,
        ⟨some ("vid2"), some ⟨none, none, none, some ("2024-01-16")⟩,
        some ⟨none⟩⟩,
        ⟨some ("vid3"), some ⟨some ("T3"), none, none, some ("2024-01-17")⟩,
        some ⟨none⟩⟩]⟩
      = [⟨"Python Course", "https://youtube.com/watch?v=vid1", none,
          some ("2h 0m"), some ("Chan"), none, none, none, none, none⟩,
         ⟨"T3", "https://youtube.com/watch?v=vid3", none, none, none, none,
          none, none, none, none⟩]
    ∧ parse_coursera_response ⟨some [⟨some ("ML"), some ("/learn/ml"), none,
        none, none, none, none, none, none, none⟩,
        ⟨none, some ("/learn/y"), none, none, none, none, none, none, none,
        none⟩]⟩
      = Except.error PyErr.validationError
    ∧ parse_udemy_response ⟨some [⟨some ⟨none, some ⟨none⟩, none, none, none,
        some ⟨some 4, some 7⟩, some ("A"),
        some ("https://www.udemy.com/course/a/"), none⟩⟩,
        ⟨some ⟨none, some ⟨none⟩, none, none, none, some ⟨some 4, some 7⟩,
        none, some ("https://www.udemy.com/course/b/"), none⟩⟩]⟩
      = Except.error PyErr.attributeError :=
  ⟨rfl, rfl, rfl, rfl⟩

/-- C7 counterexample: a Coursera item whose `partners` and `partnerLogos`
arrays are present but empty does not produce a record with absent
provider fields — `item.get('partners', [None])[0]` raises `IndexError`
on the empty list, aborting the whole batch. -/
theorem claim7_counterexample :
    parse_coursera_response ⟨some [⟨some ("ML"), some ("/learn/ml"), none,
        none, none, none, none, none, some [], some []⟩]⟩
      = Except.error PyErr.indexError :=
  rfl

/-- C7 (amended): for a Coursera item the record url is the upstream path
appended to `https://www.coursera.org`, the difficulty is lower-cased,
the duration is lower-cased with underscores replaced by spaces, and
`provider`/`provider_img` are the first elements of the parallel
`partners`/`partnerLogos` arrays — absent when those keys are missing
from the item; an explicitly empty array, however, raises `IndexError`
and aborts the batch (see the counterexample). -/
theorem claim7_coursera_mapping (p prov logo : String) (hp : p ≠ "")
    (hlogo : isValidHttpUrl logo = true) :
    parse_coursera_response ⟨some [⟨some ("Course X"), some p, none,
        some ("BEGINNER"), some ("ONE_TO_THREE_MONTHS"), none, none, none,
        some [prov], some [logo]⟩]⟩
      = Except.ok [⟨"Course X", "https://www.coursera.org" ++ p, none,
          some ("one to three months"), some prov, some logo,
          some ("beginner"), none, none, none⟩]
    ∧ parse_coursera_response ⟨some [⟨some ("Course X"), some p, none, none,
        none, none, none, none, none, none⟩]⟩
      = Except.ok [⟨"Course X", "https://www.coursera.org" ++ p, none, none,
          none, none, none, none, none, none⟩] := by
  have hb : (p == "") = false := beq_eq_false_iff_ne.mpr hp
  have hu : isValidHttpUrl ("https://www.coursera.org" ++ p) = true :=
    isValidHttpUrl_coursera_append p
  constructor
  · simp only [parse_coursera_response, parseCourseraList, parseCourseraItem,
      pyTruthyStr, hb, Bool.not_false, if_true, getListDefaultNone,
      List.map_cons, List.map_nil, pyIndex0, mkCourseSchema, validOptUrl,
      hu, hlogo, Option.map_some', Option.map_none', Bool.and_true,
      Bool.true_and]
    rfl
  · simp only [parse_coursera_response, parseCourseraList, parseCourseraItem,
      pyTruthyStr, hb, Bool.not_false, if_true, getListDefaultNone,
      List.map_cons, List.map_nil, pyIndex0, mkCourseSchema, validOptUrl,
      hu, Option.map_some', Option.map_none', Bool.and_true, Bool.true_and]
    rfl

/-- C7 witness: the amended mapping at a concrete path, partner and logo. -/
theorem claim7_coursera_mapping_witness :
    parse_coursera_response ⟨some [⟨some ("Course X"), some ("/learn/ml"),
        none, some ("BEGINNER"), some ("ONE_TO_THREE_MONTHS"), none, none,
        none, some ["Stanford"], some ["https://logo.example/x.png"]⟩]⟩
      = Except.ok [⟨"Course X", "https://www.coursera.org" ++ "/learn/ml",
          none, some ("one to three months"), some ("Stanford"),
          some ("https://logo.example/x.png"), some ("beginner"), none, none,
          none⟩]
    ∧ parse_coursera_response ⟨some [⟨some ("Course X"), some ("/learn/ml"),
        none, none, none, none, none, none, none, none⟩]⟩
      = Except.ok [⟨"Course X", "https://www.coursera.org" ++ "/learn/ml",
          none, none, none, none, none, none, none, none⟩] :=
  claim7_coursera_mapping ("/learn/ml") ("Stanford")
    ("https://logo.example/x.png") (by decide) (by decide)

theorem mkCourseSchema_ok_url_ne {title url image_url duration provider
    provider_img difficulty : Option String} {avg : Option Rat}
    {cnt : Option Int} {sk : Option (List (Option String))}
    {cd : Option PyDate} {c : Course}
    (h : mkCourseSchema title url image_url duration provider provider_img
      difficulty avg cnt sk cd = Except.ok c) : c.url ≠ "" := by
  rcases title with _ | t
  · exact absurd h (by simp [mkCourseSchema])
  rcases url with _ | u
  · exact absurd h (by simp [mkCourseSchema])
  simp only [mkCourseSchema] at h
  split at h
  · rename_i hcond
    simp only [Bool.and_eq_true] at hcond
    injection h with h'
    rw [← h']
    exact isValidHttpUrl_ne_empty hcond.1.1.1
  · exact Except.noConfusion h

theorem parseCourseraItem_ok_url {it : CourseraItem} {c : Course}
    (h : parseCourseraItem it = Except.ok c) : c.url ≠ "" := by
  simp only [parseCourseraItem] at h
  split at h
  · exact Except.noConfusion h
  · split at h
    · exact Except.noConfusion h
    · exact mkCourseSchema_ok_url_ne h

theorem parseCourseraList_ok_url (l : List CourseraItem) :
    ∀ (cs : List Course) (c : Course),
      parseCourseraList l = Except.ok cs → c ∈ cs → c.url ≠ "" := by
  induction l with
  | nil =>
    intro cs c hok hc
    simp only [parseCourseraList] at hok
    injection hok with h'
    rw [← h'] at hc
    exact absurd hc (List.not_mem_nil c)
  | cons it rest ih =>
    intro cs c hok hc
    simp only [parseCourseraList] at hok
    split at hok
    · exact Except.noConfusion hok
    · rename_i c0 hitem
      split at hok
      · exact Except.noConfusion hok
      · rename_i cs0 hrest
        injection hok with h'
        rw [← h'] at hc
        rcases List.mem_cons.mp hc with h1 | h2
        · rw [h1]
          exact parseCourseraItem_ok_url hitem
        · exact ih cs0 c hrest h2

theorem parseUdemyItem_ok_url {locals : Option (Rat × Option Int)}
    {it : UdemyItem} {c : Course} {l2 : Option (Rat × Option Int)}
    (h : parseUdemyItem locals it = Except.ok (c, l2)) : c.url ≠ "" := by
  simp only [parseUdemyItem] at h
  repeat' split at h
  all_goals try exact Except.noConfusion h
  all_goals injection h with h'
  all_goals injection h' with h1 h2
  all_goals subst h1
  all_goals exact mkCourseSchema_ok_url_ne (by assumption)

theorem parseUdemyList_ok_url (l : List UdemyItem) :
    ∀ (locals : Option (Rat × Option Int)) (cs : List Course) (c : Course),
      parseUdemyList locals l = Except.ok cs → c ∈ cs → c.url ≠ "" := by
  induction l with
  | nil =>
    intro locals cs c hok hc
    simp only [parseUdemyList] at hok
    injection hok with h'
    rw [← h'] at hc
    exact absurd hc (List.not_mem_nil c)
  | cons it rest ih =>
    intro locals cs c hok hc
    rw [parseUdemyList] at hok
    rcases hpe : parseUdemyItem locals it with e | ⟨c0, locals0⟩
    · rw [hpe] at hok
      exact Except.noConfusion hok
    · rw [hpe] at hok
      have hok' : (match parseUdemyList locals0 rest with
          | Except.error e => Except.error e
          | Except.ok cs' => Except.ok (c0 :: cs')) = Except.ok cs := hok
      rcases hrest : parseUdemyList locals0 rest with e2 | cs0
      · rw [hrest] at hok'
        exact Except.noConfusion hok'
      · rw [hrest] at hok'
        injection hok' with h'
        rw [← h'] at hc
        rcases List.mem_cons.mp hc with h1 | h2
        · rw [h1]
          exact parseUdemyItem_ok_url hpe
        · exact ih locals0 cs0 c hrest h2

theorem parseEdxItem_some_url {pimg : Option (Option String)} {it : EdxItem}
    {c : Course} {p2 : Option (Option String)}
    (h : parseEdxItem pimg it = (some c, p2)) : c.url ≠ "" := by
  simp only [parseEdxItem] at h
  repeat' split at h
  all_goals injection h with h1 h2
  all_goals try exact Option.noConfusion h1
  all_goals injection h1 with h1'
  all_goals subst h1'
  all_goals exact mkCourseSchema_ok_url_ne (by assumption)

theorem parseEdxList_mem_url (l : List EdxItem) :
    ∀ (pimg : Option (Option String)) (c : Course),
      c ∈ parseEdxList pimg l → c.url ≠ "" := by
  induction l with
  | nil =>
    intro pimg c hc
    simp only [parseEdxList] at hc
    exact absurd hc (List.not_mem_nil c)
  | cons it rest ih =>
    intro pimg c hc
    rw [parseEdxList] at hc
    rcases hpe : parseEdxItem pimg it with ⟨copt, pimg2⟩
    rw [hpe] at hc
    cases copt with
    | none => exact ih pimg2 c hc
    | some c0 =>
      rcases List.mem_cons.mp hc with h1 | h2
      · rw [h1]
        exact parseEdxItem_some_url hpe
      · exact ih pimg2 c h2

theorem parseYtItem_some_url {pd : Option PyDate} {it : YtVideoItem}
    {c : Course} {p2 : Option PyDate}
    (h : parseYtItem pd it = (some c, p2)) : c.url ≠ "" := by
  simp only [parseYtItem] at h
  repeat' split at h
  all_goals injection h with h1 h2
  all_goals try exact Option.noConfusion h1
  all_goals injection h1 with h1'
  all_goals subst h1'
  all_goals exact mkCourseSchema_ok_url_ne (by assumption)

theorem parseYtList_mem_url (l : List YtVideoItem) :
    ∀ (pd : Option PyDate) (c : Course),
      c ∈ parseYtList pd l → c.url ≠ "" := by
  induction l with
  | nil =>
    intro pd c hc
    simp only [parseYtList] at hc
    exact absurd hc (List.not_mem_nil c)
  | cons it rest ih =>
    intro pd c hc
    rw [parseYtList] at hc
    rcases hpe : parseYtItem pd it with ⟨copt, pd2⟩
    rw [hpe] at hc
    cases copt with
    | none => exact ih pd2 c hc
    | some c0 =>
      rcases List.mem_cons.mp hc with h1 | h2
      · rw [h1]
        exact parseYtItem_some_url hpe
      · exact ih pd2 c h2

/-- C3 counterexample: a Coursera item whose upstream `name` is the empty
string yields an included record whose `title` is `""` — pydantic's
`title: str` accepts the empty string, so "non-empty title" does not hold
for produced records. -/
theorem claim3_counterexample :
    parse_coursera_response ⟨some [⟨some (""), some ("/learn/x"), none, none,
        none, none, none, none, none, none⟩]⟩
      = Except.ok [⟨"", "https://www.coursera.org/learn/x", none, none, none,
          none, none, none, none, none⟩] :=
  rfl

/-- C3 (amended): every Normalized Course Record produced by any of the
four adapters has a non-empty `url` (the `HttpUrl` validation guarantees
it, and an item whose url would be empty or missing never yields an
included record — it aborts the batch or is skipped); the title, however,
may be the empty string when the source supplies one (see the
counterexample), so only the url half of the invariant holds. -/
theorem claim3_url_nonempty :
    (∀ (data : CourseraResponse) (cs : List Course) (c : Course),
        parse_coursera_response data = Except.ok cs → c ∈ cs → c.url ≠ "")
    ∧ (∀ (data : UdemyResponse) (cs : List Course) (c : Course),
        parse_udemy_response data = Except.ok cs → c ∈ cs → c.url ≠ "")
    ∧ (∀ (data : Option EdxResponse) (c : Course),
        c ∈ parse_edx_response data → c.url ≠ "")
    ∧ (∀ (data : YtResponse) (c : Course),
        c ∈ parse_youtube_response data → c.url ≠ "") := by
  refine ⟨?_, ?_, ?_, ?_⟩
  · intro data cs c hok hc
    rcases data with ⟨_ | els⟩
    · simp only [parse_coursera_response] at hok
      injection hok with h'
      rw [← h'] at hc
      exact absurd hc (List.not_mem_nil c)
    · exact parseCourseraList_ok_url els cs c hok hc
  · intro data cs c hok hc
    rcases data with ⟨_ | items⟩
    · simp only [parse_udemy_response] at hok
      injection hok with h'
      rw [← h'] at hc
      exact absurd hc (List.not_mem_nil c)
    · exact parseUdemyList_ok_url items none cs c hok hc
  · intro data c hc
    rcases data with _ | ⟨_ | ⟨r, rs⟩⟩
    · simp only [parse_edx_response] at hc
      exact absurd hc (List.not_mem_nil c)
    · simp only [parse_edx_response] at hc
      exact absurd hc (List.not_mem_nil c)
    · exact parseEdxList_mem_url r.hits none c hc
  · intro data c hc
    exact parseYtList_mem_url (data.items.getD []) none c hc

/-- C3 witness: the url invariant applied to a concrete Coursera batch
whose single record is produced by the parser. -/
theorem claim3_url_nonempty_witness :
    (⟨"ML", "https://www.coursera.org/learn/ml", none, none, none, none,
      none, none, none, none⟩ : Course).url ≠ "" :=
  claim3_url_nonempty.1
    ⟨some [⟨some ("ML"), some ("/learn/ml"), none, none, none, none, none,
      none, none, none⟩]⟩
    [⟨"ML", "https://www.coursera.org/learn/ml", none, none, none, none,
      none, none, none, none⟩]
    ⟨"ML", "https://www.coursera.org/learn/ml", none, none, none, none,
      none, none, none, none⟩
    rfl (List.mem_singleton.mpr rfl)
